import Mathlib

/-!
Verification of the HRPay asynchronous job subsystem: the payroll status
state machine, the payroll generation job handler, the email dispatch
handler, and the AMQP wrapper (connection manager, publisher, consumer
engine).  Definitions are shallow embeddings of the TypeScript source;
monetary amounts (Prisma `Decimal(_, 2)` columns) are represented as an
integer number of cents, and hours (`Decimal(6, 2)`) as an integer number
of hundredths of an hour, so that every 2-decimal-place quantity of the
source is represented exactly.
-/

set_option maxHeartbeats 1000000
set_option maxRecDepth 10000

/-- Prisma enum `PayrollStatus` (schema.prisma). -/
inductive PayrollStatus where
  | DRAFT
  | APPROVED
  | PAID
  | ERROR
  | CANCELLED
deriving DecidableEq, Repr

/-- Prisma enum `PayType` (schema.prisma). -/
inductive PayType where
  | SALARY
  | HOURLY
deriving DecidableEq, Repr

/-- Result of `validatePayrollTransition`: it either returns normally or
throws an `ApiError(statusCode, message)`. -/
inductive TransitionResult where
  | ok
  | error (statusCode : Nat) (message : String)
deriving DecidableEq, Repr

/-- The `validTransitions` adjacency table (payroll state machine source). -/
def validTransitions : PayrollStatus → List PayrollStatus
  | .DRAFT => [.APPROVED]
  | .APPROVED => [.PAID]
  | .PAID => []
  | .ERROR => []
  | .CANCELLED => []

/-- String rendering of a status, as produced by the template literal
interpolation of the enum value in the source error message. -/
def statusName : PayrollStatus → String
  | .DRAFT => "DRAFT"
  | .APPROVED => "APPROVED"
  | .PAID => "PAID"
  | .ERROR => "ERROR"
  | .CANCELLED => "CANCELLED"

/-- Embedding of `validatePayrollTransition(currentStatus, nextStatus)`:
same-state is accepted, otherwise the pair must be an edge of
`validTransitions`, else an `ApiError(400, ...)` naming both states is
thrown.  The function is pure: it touches no other state. -/
def validatePayrollTransition (currentStatus nextStatus : PayrollStatus) : TransitionResult :=
  if currentStatus = nextStatus then
    .ok
  else if nextStatus ∈ validTransitions currentStatus then
    .ok
  else
    .error 400
      ("Invalid payroll transition: Cannot move from " ++ statusName currentStatus ++
        " to " ++ statusName nextStatus ++ ".")

/-- C2: for every pair of payroll statuses, `validatePayrollTransition`
returns normally exactly when the statuses are equal or the pair is an edge
of the fixed table DRAFT→APPROVED, APPROVED→PAID (terminal states have no
outgoing edges); every other pair throws an ApiError with HTTP status 400
whose message names both states.  The table itself is pinned by the final
conjunct. -/
theorem validatePayrollTransition_spec :
    ∀ c n : PayrollStatus,
      (validatePayrollTransition c n = .ok ↔ (c = n ∨ n ∈ validTransitions c)) ∧
      (¬ (c = n ∨ n ∈ validTransitions c) →
        validatePayrollTransition c n =
          .error 400
            ("Invalid payroll transition: Cannot move from " ++ statusName c ++
              " to " ++ statusName n ++ ".")) ∧
      (validTransitions .DRAFT = [.APPROVED] ∧ validTransitions .APPROVED = [.PAID] ∧
        validTransitions .PAID = [] ∧ validTransitions .ERROR = [] ∧
        validTransitions .CANCELLED = []) := by
  intro c n
  cases c <;> cases n <;> decide

/-- Witness for C2 at a concrete rejected pair. -/
theorem validatePayrollTransition_spec_witness :
    validatePayrollTransition .DRAFT .PAID =
      .error 400 "Invalid payroll transition: Cannot move from DRAFT to PAID." :=
  (validatePayrollTransition_spec .DRAFT .PAID).2.1 (by decide)

/-! ### Payroll generation data model

Shallow embedding of the rows the payroll generation job handler reads and
writes (Prisma models `Employee`, `Payroll`, `EmployeePayroll`, `AuditLog`
restricted to the fields that handler touches).  Amounts are in cents,
hours in hundredths of an hour. -/

/-- Relevant fields of the Prisma `Employee` model.  `salary` is
`Decimal(12,2)?` in cents, `payRate` is `Decimal(10,2)?` in cents. -/
structure Employee where
  id : String
  companyId : String
  isActive : Bool
  payType : PayType
  salary : Option Int
  payRate : Option Int
deriving DecidableEq, Repr

/-- Relevant fields of the Prisma `Payroll` model.  `totalGross` and
`totalNet` are `Decimal(14,2)?` in cents. -/
structure Payroll where
  id : String
  companyId : String
  status : PayrollStatus
  totalGross : Option Int
  totalNet : Option Int
deriving DecidableEq, Repr

/-- Relevant fields of the Prisma `EmployeePayroll` model (one pay line per
employee and payroll).  `regularHoursWorked` is `Decimal(6,2)?` in
hundredths of an hour. -/
structure EmployeePayroll where
  payrollId : String
  employeeId : String
  grossAmount : Int
  netAmount : Int
  regularHoursWorked : Option Int
deriving DecidableEq, Repr

/-- The one `AuditActionType` value the payroll generation handler writes. -/
inductive AuditActionType where
  | PAYROLL_GENERATED
deriving DecidableEq, Repr

/-- Relevant fields of the Prisma `AuditLog` model; `detailsTotalGross`
models the `details: { totalGross: ... }` JSON blob. -/
structure AuditLog where
  actionType : AuditActionType
  payrollId : String
  detailsTotalGross : Int
deriving DecidableEq, Repr

/-- The relational store as seen by the payroll generation handler. -/
structure DB where
  payrolls : List Payroll
  employees : List Employee
  employeePayrolls : List EmployeePayroll
  auditLogs : List AuditLog
deriving DecidableEq, Repr

/-- Shape of a `GeneratePayrollJobPayload` message (payroll.types). -/
structure GeneratePayrollJobPayload where
  payrollId : String
  companyId : String
  periodStart : String
  periodEnd : String
  generatedById : String
  retryCount : Option Nat
deriving DecidableEq, Repr

/-- Outcome of one invocation of a job handler: the returned promise either
resolves with a boolean or rejects (the handler throws). -/
inductive HandlerOutcome where
  | resolved (value : Bool)
  | threw
deriving DecidableEq, Repr

/-- Rounding used by `Decimal.toDecimalPlaces(2)` (decimal.js default
ROUND_HALF_UP, i.e. ties away from zero) applied to the product of a
cent-valued rate and a hundredth-valued hour count, which is a quantity in
units of 10^-4 dollars; the result is in cents. -/
def roundTenThousandthsToCents (p : Int) : Int :=
  if 0 ≤ p then (p + 50) / 100 else -((-p + 50) / 100)

/-- Embedding of `calculateEmployeeGrossPay(employee, hoursWorked)`
(part_005 lines 16-31).  Prisma `Decimal` objects are truthy in JS even at
value 0, so the truthiness tests on `employee.salary` / `employee.payRate`
are exactly non-nullness; `hoursWorked !== undefined` is `Option.isSome`.
Returns the gross pay in cents and the optional `hoursInfo.regular`. -/
def calculateEmployeeGrossPay (employee : Employee) (hoursWorked : Option Int) :
    Int × Option Int :=
  if employee.payType = PayType.SALARY ∧ employee.salary.isSome then
    (employee.salary.getD 0, none)
  else if employee.payType = PayType.HOURLY ∧ employee.payRate.isSome ∧ hoursWorked.isSome then
    (roundTenThousandthsToCents (employee.payRate.getD 0 * hoursWorked.getD 0), hoursWorked)
  else
    (0, none)

/-- Embedding of `prisma.payroll.findUnique({ where: { id } })`. -/
def findPayroll (db : DB) (payrollId : String) : Option Payroll :=
  db.payrolls.find? (fun p => p.id == payrollId)

/-- Employees of the payroll's company (`include: { company: { include:
{ employees: true } } }`) filtered by `isActive` as at part_005 line 80. -/
def activeEmployeesOf (db : DB) (companyId : String) : List Employee :=
  (db.employees.filter (fun e => e.companyId == companyId)).filter (fun e => e.isActive)

/-- Embedding of `prisma.employeePayroll.findFirst({ where: { payrollId,
employeeId } })`. -/
def findEmployeePayroll (db : DB) (payrollId employeeId : String) : Option EmployeePayroll :=
  db.employeePayrolls.find? (fun ep => ep.payrollId == payrollId && ep.employeeId == employeeId)

/-- Hours lookup of part_005 lines 95-101: only for HOURLY employees, from
a pre-existing `EmployeePayroll` row; `empPayroll?.regularHoursWorked ?`
is falsy exactly when the row is absent or the column is null (a Decimal
object, even 0, is truthy). -/
def hoursWorkedFor (db : DB) (payrollId : String) (employee : Employee) : Option Int :=
  if employee.payType = PayType.HOURLY then
    match findEmployeePayroll db payrollId employee.id with
    | some ep => ep.regularHoursWorked
    | none => none
  else
    none

/-- The per-employee loop of part_005 lines 90-116: builds the
`employeePayrollDetails` list and accumulates `totalGross`/`totalNet`.
`netPay = grossPay` (no deductions); the stored `regularHoursWorked` is
`hoursInfo?.regular || null`, so a 0 value is stored as null. -/
def computeDetails (db : DB) (payrollId : String) (employees : List Employee) :
    List EmployeePayroll × Int × Int :=
  employees.foldl
    (fun acc e =>
      let hw := hoursWorkedFor db payrollId e
      let gp := calculateEmployeeGrossPay e hw
      let grossPay := gp.1
      let netPay := grossPay
      let storedHours : Option Int :=
        match gp.2 with
        | some r => if r = 0 then none else some r
        | none => none
      (acc.1 ++ [⟨payrollId, e.id, grossPay, netPay, storedHours⟩],
        acc.2.1 + grossPay, acc.2.2 + netPay))
    ([], 0, 0)

/-- Embedding of the zero-active-employee update at part_005 lines 83-86:
set totals to 0, keep status DRAFT. -/
def updatePayrollTotalsZero (db : DB) (payrollId : String) : DB :=
  { db with
    payrolls := db.payrolls.map (fun p =>
      if p.id == payrollId then
        { p with totalGross := some 0, totalNet := some 0, status := PayrollStatus.DRAFT }
      else p) }

/-- Embedding of the transaction at part_005 lines 119-137: delete all
lines for the payroll, insert the fresh ones, update the payroll totals
keeping status DRAFT, and append one PAYROLL_GENERATED audit entry. -/
def applyGenerationTransaction (db : DB) (payrollId : String)
    (details : List EmployeePayroll) (totalGross totalNet : Int) : DB :=
  { db with
    employeePayrolls :=
      db.employeePayrolls.filter (fun ep => ep.payrollId != payrollId) ++ details,
    payrolls := db.payrolls.map (fun p =>
      if p.id == payrollId then
        { p with totalGross := some totalGross, totalNet := some totalNet,
                 status := PayrollStatus.DRAFT }
      else p),
    auditLogs := db.auditLogs ++ [⟨AuditActionType.PAYROLL_GENERATED, payrollId, totalGross⟩] }

/-- The `finalStatuses` list of part_005 line 62, verbatim; note that it
contains DRAFT (and not CANCELLED). -/
def finalStatuses : List PayrollStatus :=
  [PayrollStatus.DRAFT, PayrollStatus.APPROVED, PayrollStatus.PAID, PayrollStatus.ERROR]

/-- Embedding of `processGeneratePayrollJob(payload)` (part_005 lines
45-152) as explicit state passing over the store.  In this sequential
embedding the store operations are total, so the catch block of lines
141-151 (which re-checks the status after a thrown write) is unreachable
and is not modelled; every path below is the happy path of the source. -/
def processGeneratePayrollJob (payload : GeneratePayrollJobPayload) (db : DB) :
    HandlerOutcome × DB :=
  match findPayroll db payload.payrollId with
  | none => (.resolved false, db)
  | some currentPayroll =>
    if currentPayroll.status ∈ finalStatuses then
      (.resolved true, db)
    else
      match findPayroll db payload.payrollId with
      | none => (.resolved false, db)
      | some payroll =>
        if payroll.status ≠ PayrollStatus.DRAFT then
          (.resolved false, db)
        else
          let employees := activeEmployeesOf db payroll.companyId
          if employees.isEmpty then
            (.resolved true, updatePayrollTotalsZero db payload.payrollId)
          else
            let cd := computeDetails db payload.payrollId employees
            (.resolved true, applyGenerationTransaction db payload.payrollId cd.1 cd.2.1 cd.2.2)

/-! ### Consumer engine -/

/-- A message delivered from a queue: either its body fails `JSON.parse`
(malformed) or it parses to a payload of type `α`. -/
inductive Message (α : Type) where
  | malformed
  | content (value : α)

/-- What the consumer engine does with a delivery. -/
inductive AckAction where
  | ack
  | nackNoRequeue
deriving DecidableEq, Repr

/-- Observable result of consuming one message: the acknowledgment action,
whether the handler callback was invoked at all, and the resulting handler
state. -/
structure ConsumeResult (σ : Type) where
  action : AckAction
  handlerInvoked : Bool
  finalState : σ
deriving DecidableEq, Repr

/-- Embedding of the per-message callback of `consumeMessages`
(email.service.ts lines 710-740): on a JSON parse failure the message is
nack-ed without requeue and the handler is never invoked; otherwise the
handler runs, and the message is ack-ed when the callback resolves (its
returned value is ignored) and nack-ed without requeue when it throws. -/
def consumeOne {α σ : Type} (handler : α → σ → HandlerOutcome × σ)
    (msg : Message α) (s : σ) : ConsumeResult σ :=
  match msg with
  | .malformed => ⟨.nackNoRequeue, false, s⟩
  | .content a =>
    match handler a s with
    | (.resolved _, s2) => ⟨.ack, true, s2⟩
    | (.threw, s2) => ⟨.nackNoRequeue, true, s2⟩

/-- Folding a list of redelivered generation jobs through the handler. -/
def runJobs (jobs : List GeneratePayrollJobPayload) (db : DB) : DB :=
  jobs.foldl (fun d j => (processGeneratePayrollJob j d).2) db

/-! ### Concrete fixtures -/

/-- Alice: active, salaried at 3000.00 (300000 cents). -/
def alice : Employee := ⟨"emp-alice", "C1", true, .SALARY, some 300000, none⟩

/-- Bob: active, hourly at 20.00 (2000 cents). -/
def bob : Employee := ⟨"emp-bob", "C1", true, .HOURLY, none, some 2000⟩

/-- Pre-existing line row carrying Bob's 80 regular hours (8000 hundredths). -/
def bobHoursRow : EmployeePayroll := ⟨"P1", "emp-bob", 0, 0, some 8000⟩

/-- Payroll P1 of the spec's example scenario, in DRAFT. -/
def p1 : Payroll := ⟨"P1", "C1", .DRAFT, none, none⟩

/-- Store for the example scenario. -/
def dbP1 : DB := ⟨[p1], [alice, bob], [bobHoursRow], []⟩

/-- The generation job for P1. -/
def jobP1 : GeneratePayrollJobPayload :=
  ⟨"P1", "C1", "2024-01-01T00:00:00.000Z", "2024-01-31T00:00:00.000Z", "user-1", none⟩

/-- A cancelled payroll and a store containing only it. -/
def pCancelled : Payroll := ⟨"P9", "C1", .CANCELLED, some 100, some 100⟩

/-- Store holding only the cancelled payroll. -/
def dbCancelled : DB := ⟨[pCancelled], [], [], []⟩

/-- The generation job for the cancelled payroll. -/
def jobP9 : GeneratePayrollJobPayload :=
  ⟨"P9", "C1", "2024-02-01T00:00:00.000Z", "2024-02-29T00:00:00.000Z", "user-1", none⟩

/-- An empty store: no payroll matches any id. -/
def dbEmpty : DB := ⟨[], [], [], []⟩

/-- A generation job whose payroll id matches nothing in `dbEmpty`. -/
def jobP404 : GeneratePayrollJobPayload :=
  ⟨"P404", "C1", "2024-03-01T00:00:00.000Z", "2024-03-31T00:00:00.000Z", "user-1", none⟩

/-! ### Payroll handler theorems -/

/-- The generation handler never writes: every reachable path of
`processGeneratePayrollJob` returns the store unchanged, because the
status check of line 62 short-circuits DRAFT, APPROVED, PAID and ERROR,
and the only remaining status, CANCELLED, fails the `status !== DRAFT`
guard of line 75; the calculation and both update paths are dead code. -/
theorem processGeneratePayrollJob_writes_nothing
    (payload : GeneratePayrollJobPayload) (db : DB) :
    (processGeneratePayrollJob payload db).2 = db := by
  unfold processGeneratePayrollJob
  cases h : findPayroll db payload.payrollId with
  | none => rfl
  | some p =>
    by_cases hmem : p.status ∈ finalStatuses
    · simp [hmem]
    · have hne : p.status ≠ PayrollStatus.DRAFT := by
        intro hd
        exact hmem (by rw [hd]; decide)
      simp [hmem, h, hne]

/-- C1: on the spec's example scenario (payroll P1 in DRAFT with active
employees Alice, salaried 3000.00, and Bob, hourly 20.00 for 80 hours) one
run of the handler performs no write at all and acknowledges the job as an
already-final no-op, because `finalStatuses` (part_005 line 62) contains
DRAFT: no EmployeePayrollLine is written, the totals stay null, and no
audit entry is appended — even though `calculateEmployeeGrossPay` would
have produced the claimed 3000.00 and 1600.00 amounts had the generation
code been reachable. -/
theorem processGeneratePayrollJob_noop_on_draft_P1 :
    processGeneratePayrollJob jobP1 dbP1 = (.resolved true, dbP1) ∧
    (processGeneratePayrollJob jobP1 dbP1).2.auditLogs = [] ∧
    (processGeneratePayrollJob jobP1 dbP1).2.employeePayrolls = [bobHoursRow] ∧
    (processGeneratePayrollJob jobP1 dbP1).2.payrolls = [p1] ∧
    (calculateEmployeeGrossPay alice none).1 = 300000 ∧
    (calculateEmployeeGrossPay bob (some 8000)).1 = 160000 := by
  decide

/-- C3: consuming a (re)delivered generation job whose payroll is already
APPROVED, PAID, ERROR or CANCELLED acknowledges the message via the
success path and leaves the store untouched (zero writes).  APPROVED, PAID
and ERROR resolve `true` through the `finalStatuses` check; CANCELLED
resolves `false` through the `status !== DRAFT` guard, and the consumer
engine acks any resolved callback. -/
theorem consume_resolved_payroll_acks_no_writes
    (db : DB) (payload : GeneratePayrollJobPayload) (p : Payroll)
    (hfind : findPayroll db payload.payrollId = some p)
    (hstatus : p.status = .APPROVED ∨ p.status = .PAID ∨ p.status = .ERROR ∨
      p.status = .CANCELLED) :
    consumeOne processGeneratePayrollJob (Message.content payload) db = ⟨.ack, true, db⟩ := by
  have hw := processGeneratePayrollJob_writes_nothing payload db
  unfold consumeOne
  rcases hstatus with hs | hs | hs | hs <;>
    · unfold processGeneratePayrollJob at hw ⊢
      simp [hfind, hs, finalStatuses] at hw ⊢

/-- Witness for C3 at the cancelled payroll fixture. -/
theorem consume_resolved_payroll_acks_no_writes_witness :
    consumeOne processGeneratePayrollJob (Message.content jobP9) dbCancelled =
      ⟨.ack, true, dbCancelled⟩ :=
  consume_resolved_payroll_acks_no_writes dbCancelled jobP9 pCancelled (by decide) (by decide)

/-- C4: once a payroll is in a terminal state (PAID, ERROR or CANCELLED),
no sequence of generation-job executions, on any payloads in any order,
changes any payroll row or any EmployeePayrollLine row — in particular not
that payroll's status, totals or lines. -/
theorem terminal_payroll_unchanged_by_jobs
    (db : DB) (jobs : List GeneratePayrollJobPayload) (p : Payroll)
    (hmem : p ∈ db.payrolls)
    (hterm : p.status = .PAID ∨ p.status = .ERROR ∨ p.status = .CANCELLED) :
    (runJobs jobs db).payrolls = db.payrolls ∧
    (runJobs jobs db).employeePayrolls = db.employeePayrolls := by
  have hall : runJobs jobs db = db := by
    induction jobs with
    | nil => rfl
    | cons j rest ih =>
      unfold runJobs at ih ⊢
      rw [List.foldl_cons, processGeneratePayrollJob_writes_nothing j db]
      exact ih
  rw [hall]
  exact ⟨rfl, rfl⟩

/-- Witness for C4: two redeliveries against the cancelled-payroll store. -/
theorem terminal_payroll_unchanged_by_jobs_witness :
    (runJobs [jobP9, jobP9] dbCancelled).payrolls = dbCancelled.payrolls ∧
    (runJobs [jobP9, jobP9] dbCancelled).employeePayrolls = dbCancelled.employeePayrolls :=
  terminal_payroll_unchanged_by_jobs dbCancelled [jobP9, jobP9] pCancelled
    (by decide) (by decide)

/-- C5: a generation job whose payroll id matches no stored payroll makes
the handler resolve with `false` (its documented permanent-failure
signal), but the consumer engine ignores the resolved value and
acknowledges the message as a success; the store is untouched.  The
message is therefore not dead-lettered. -/
theorem missing_payroll_job_is_acked :
    consumeOne processGeneratePayrollJob (Message.content jobP404) dbEmpty =
      ⟨.ack, true, dbEmpty⟩ ∧
    (processGeneratePayrollJob jobP404 dbEmpty).1 = .resolved false := by
  decide

/-! ### Broker connection manager -/

/-- Mutable fields of the `AMQPWrapper` singleton that the reconnect logic
reads and writes.  `channels` holds the names of the queues whose channels
have been created (the keys of the `channels` map);
`reconnectTimeoutPending` is whether `reconnectTimeout` is non-null. -/
structure AmqpState where
  connected : Bool
  channels : List String
  reconnectTimeoutPending : Bool
  reconnectAttempts : Nat
  isExplicitlyClosing : Bool
deriving DecidableEq, Repr

/-- Constructor constant `maxReconnectAttempts = 10`. -/
def maxReconnectAttempts : Nat := 10

/-- Constructor constant `initialReconnectDelay = 1000` ms. -/
def initialReconnectDelayMs : Nat := 1000

/-- Constructor constant `maxReconnectDelay = 30000` ms. -/
def maxReconnectDelayMs : Nat := 30000

/-- Externally observable effect of one reconnect-scheduling step: nothing,
the terminal `failed` event, or a timer armed for the given delay. -/
inductive ReconnectSignal where
  | noAction
  | failedSignal
  | scheduled (delayMs : Nat)
deriving DecidableEq, Repr

/-- Embedding of `scheduleReconnect` (email.service.ts lines 566-606):
skip when explicitly closing or a timer is already pending; at the attempt
cap emit `failed` and stop; otherwise arm one timer for
`min(initialReconnectDelay * 2^attempts, maxReconnectDelay)` — the source
adds no jitter term — and increment the attempt counter. -/
def scheduleReconnect (s : AmqpState) : ReconnectSignal × AmqpState :=
  if s.isExplicitlyClosing || s.reconnectTimeoutPending then
    (.noAction, s)
  else if maxReconnectAttempts ≤ s.reconnectAttempts then
    (.failedSignal, s)
  else
    (.scheduled (min (initialReconnectDelayMs * 2 ^ s.reconnectAttempts) maxReconnectDelayMs),
      { s with reconnectAttempts := s.reconnectAttempts + 1, reconnectTimeoutPending := true })

/-- Embedding of `handleConnectionClose` (lines 555-564): an intentional
close does nothing; an unintentional close drops the connection, clears
the channel map and schedules a reconnect. -/
def handleConnectionClose (s : AmqpState) : ReconnectSignal × AmqpState :=
  if s.isExplicitlyClosing then
    (.noAction, s)
  else
    scheduleReconnect { s with connected := false, channels := [] }

/-- Embedding of `reinitializeChannels` (lines 609-618): the method body is
entirely commented out, so it changes nothing and re-asserts no queue; the
returned list is the queues it re-declares, always empty. -/
def reprovisionChannels (s : AmqpState) : AmqpState × List String :=
  (s, [])

/-- Embedding of the success path of `connect` (lines 522-535): mark
connected, reset the attempt counter to zero, clear any pending reconnect
timer, then run `reinitializeChannels`; the second component is the list
of queues re-declared by that hook. -/
def connectSuccess (s : AmqpState) : AmqpState × List String :=
  reprovisionChannels
    { s with connected := true, reconnectAttempts := 0, reconnectTimeoutPending := false }

/-- Fixture: a connected manager that has declared one queue topology. -/
def amqpS0 : AmqpState := ⟨true, ["payroll_job_queue"], false, 0, false⟩

/-- Counterexample for C6: after an unintentional close of `amqpS0` (which
had declared the payroll queue topology) followed by a successful
reconnect, nothing is re-provisioned — the re-declared-queue list is empty
and the channel registry stays empty — refuting the claim's final conjunct
that a successful reconnect re-provisions previously-declared
topologies/consumers. -/
theorem reconnect_does_not_reprovision :
    (handleConnectionClose amqpS0).1 = .scheduled 1000 ∧
    amqpS0.channels = ["payroll_job_queue"] ∧
    (connectSuccess (handleConnectionClose amqpS0).2).2 = [] ∧
    (connectSuccess (handleConnectionClose amqpS0).2).1.channels = [] := by
  decide

/-- C6 (amended): for every unintentional close with attempt counter below
the fixed maximum of 10 and no timer pending, exactly one reconnect is
scheduled after `min(1000 * 2^n, 30000)` ms (no jitter term) and the
counter is incremented; once the counter has reached the maximum no
further attempt is scheduled and the terminal `failed` signal is emitted;
and a successful reconnect resets the counter to zero and clears the
timer, but its re-provisioning hook performs no action. -/
theorem reconnect_policy (s : AmqpState)
    (hclosing : s.isExplicitlyClosing = false)
    (hpending : s.reconnectTimeoutPending = false) :
    (s.reconnectAttempts < maxReconnectAttempts →
      handleConnectionClose s =
        (.scheduled (min (initialReconnectDelayMs * 2 ^ s.reconnectAttempts) maxReconnectDelayMs),
          { s with connected := false, channels := [],
                   reconnectAttempts := s.reconnectAttempts + 1,
                   reconnectTimeoutPending := true })) ∧
    (maxReconnectAttempts ≤ s.reconnectAttempts →
      handleConnectionClose s = (.failedSignal, { s with connected := false, channels := [] })) ∧
    ((connectSuccess s).1.reconnectAttempts = 0 ∧
      (connectSuccess s).1.reconnectTimeoutPending = false ∧
      (connectSuccess s).2 = []) := by
  refine ⟨?_, ?_, rfl, rfl, rfl⟩
  · intro hlt
    have hnle : ¬ maxReconnectAttempts ≤ s.reconnectAttempts := Nat.not_le.mpr hlt
    simp [handleConnectionClose, scheduleReconnect, hclosing, hpending, hnle]
  · intro hge
    simp [handleConnectionClose, scheduleReconnect, hclosing, hpending, hge]

/-- Witness for C6 at attempt counter 3: the scheduled delay is 8000 ms. -/
theorem reconnect_policy_witness :
    handleConnectionClose ⟨true, ["payroll_job_queue"], false, 3, false⟩ =
      (.scheduled 8000, ⟨false, [], true, 4, false⟩) :=
  (reconnect_policy ⟨true, ["payroll_job_queue"], false, 3, false⟩ rfl rfl).1 (by decide)

/-! ### JSON values and the publisher -/

/-- A parsed JSON value (the result of `JSON.parse` on a message body or
the argument of `JSON.stringify` in the publisher).  Object fields are the
key/value pairs of the parsed JS object, so keys are distinct. -/
inductive Json where
  | null
  | bool (b : Bool)
  | num (n : Int)
  | str (s : String)
  | arr (elems : List Json)
  | obj (fields : List (String × Json))

mutual

/-- Embedding of `JSON.stringify` for the Json model (string escaping is
not modelled; payload strings here contain no escapes). -/
def Json.serialize : Json → String
  | .null => "null"
  | .bool true => "true"
  | .bool false => "false"
  | .num n => toString n
  | .str s => "\"" ++ s ++ "\""
  | .arr xs => "[" ++ serializeElems xs ++ "]"
  | .obj fs => "\x7b" ++ serializeFields fs ++ "\x7d"

/-- Comma-separated serialization of array elements. -/
def serializeElems : List Json → String
  | [] => ""
  | [x] => Json.serialize x
  | x :: y :: xs => Json.serialize x ++ "," ++ serializeElems (y :: xs)

/-- Comma-separated serialization of object fields. -/
def serializeFields : List (String × Json) → String
  | [] => ""
  | [(k, v)] => "\"" ++ k ++ "\":" ++ Json.serialize v
  | (k, v) :: f :: fs =>
    "\"" ++ k ++ "\":" ++ Json.serialize v ++ "," ++ serializeFields (f :: fs)

end

/-- Property access on a parsed JS object: the value of the named field,
or none for a missing field or a non-object. -/
def Json.getField : Json → String → Option Json
  | .obj fields, key => (fields.find? (fun kv => kv.1 == key)).map (fun kv => kv.2)
  | _, _ => none

/-- Outcome of the broker collaborators inside one `publishMessage` call:
whether `getOrCreateChannel` succeeds (it throws when the connection is
down or channel creation fails), whether `sendToQueue` throws, and the
boolean `sendToQueue` returns (false = the channel's local buffer refused
admission). -/
structure PublishEnv where
  channelOk : Bool
  sendThrows : Bool
  bufferAccepts : Bool
deriving DecidableEq, Repr

/-- A message handed to the broker channel by `sendToQueue`. -/
structure PublishedMessage where
  queue : String
  body : String
  persistent : Bool
deriving DecidableEq, Repr

/-- Observable result of one `publishMessage` call: the returned boolean,
the messages handed to the channel, and whether the buffer-full warning
was logged. -/
structure PublishResult where
  returned : Bool
  sent : List PublishedMessage
  warnedBufferFull : Bool
deriving DecidableEq, Repr

/-- Embedding of `publishMessage(queue, message, options)` for a single
message with the default empty options (email.service.ts lines 661-696):
any throw from `getOrCreateChannel` or `sendToQueue` is caught and yields
`false`; otherwise the payload is serialized, sent with
`persistent: true`, a warning is logged when `sendToQueue` returned false
— and the function returns `true` regardless (the `return false` for the
buffer-full case is commented out in the source).  The function is total:
it never throws. -/
def publishMessage (env : PublishEnv) (queue : String) (payload : Json) : PublishResult :=
  if env.channelOk = false then
    ⟨false, [], false⟩
  else if env.sendThrows then
    ⟨false, [], false⟩
  else
    ⟨true, [⟨queue, Json.serialize payload, true⟩], !env.bufferAccepts⟩

/-- Environment in which the channel accepts the call but its local buffer
refuses the message. -/
def bufferFullEnv : PublishEnv := ⟨true, false, false⟩

/-- Counterexample for C7: when the channel's local buffer refuses
admission (`sendToQueue` returns false) the source logs a warning but
still returns `true`, refuting the claim that the returned boolean is true
if and only if the buffer accepted the message. -/
theorem publish_returns_true_despite_full_buffer :
    (publishMessage bufferFullEnv "email_job_queue" Json.null).returned = true ∧
    bufferFullEnv.bufferAccepts = false ∧
    (publishMessage bufferFullEnv "email_job_queue" Json.null).warnedBufferFull = true := by
  decide

/-- C7 (amended): `publishMessage` serializes the payload, marks the
message persistent, never throws (it is total and catches every
collaborator throw), and returns true exactly when no exception occurred
while obtaining the channel or publishing; a refused local buffer only
logs a warning — the call still returns true. -/
theorem publishMessage_spec (env : PublishEnv) (queue : String) (payload : Json) :
    ((publishMessage env queue payload).returned = (env.channelOk && !env.sendThrows)) ∧
    (env.channelOk = true → env.sendThrows = false →
      (publishMessage env queue payload).sent = [⟨queue, Json.serialize payload, true⟩] ∧
      (publishMessage env queue payload).warnedBufferFull = (!env.bufferAccepts)) ∧
    ((env.channelOk = false ∨ env.sendThrows = true) →
      (publishMessage env queue payload).sent = []) := by
  rcases env with ⟨co, st, ba⟩
  cases co <;> cases st <;> cases ba <;> simp [publishMessage]

/-- Witness for C7: a clean publish sends one persistent message. -/
theorem publishMessage_spec_witness :
    (publishMessage ⟨true, false, true⟩ "email_job_queue" (Json.str "hi")).sent =
      [⟨"email_job_queue", "\"hi\"", true⟩] :=
  ((publishMessage_spec ⟨true, false, true⟩ "email_job_queue" (Json.str "hi")).2.1 rfl rfl).1

/-! ### Email dispatch handler -/

/-- A validated email job payload (the discriminated union
`EmailJobPayloadSchema`, part_005 lines 200-232). -/
inductive EmailJobPayload where
  | verification (toAddr token : String) (name : Option String) (retryCount : Option Nat)
  | invite (toAddr companyName invitationUrl : String) (retryCount : Option Nat)
  | welcome (toAddr : String) (name companyName : Option String) (retryCount : Option Nat)
deriving DecidableEq, Repr

/-- One invocation of the templated email collaborator, with the arguments
the handler passed (part_005 lines 270, 276, 281, 284). -/
inductive EmailCall where
  | verificationEmail (toAddr token : String) (name : Option String)
  | userInvitation (companyName toAddr invitationUrl : String)
  | welcomeOnboarding (toAddr : String) (name : Option String)
  | companyWelcome (toAddr companyName : String) (name : Option String)
deriving DecidableEq, Repr

/-- List-level check that one list of characters starts with another. -/
def startsWithChars : List Char → List Char → Bool
  | [], _ => true
  | _ :: _, [] => false
  | a :: as, b :: bs => a == b && startsWithChars as bs

/-- Abstraction of the zod `z.string().email()` format check: modelled as
containing an '@'.  The claims settled here do not depend on the exact
email regex; every concrete address used below is accepted by both. -/
def isEmailLike (s : String) : Bool := s.data.contains '@'

/-- Abstraction of the zod `z.string().url()` format check: modelled as an
http or https scheme prefix; the claims settled here do not depend on the
exact URL grammar. -/
def isUrlLike (s : String) : Bool :=
  startsWithChars "http://".data s.data || startsWithChars "https://".data s.data

/-- Parse of the shared base field `to: z.string().email()`. -/
def parseTo (j : Json) : Option String :=
  match j.getField "to" with
  | some (.str s) => if isEmailLike s then some s else none
  | _ => none

/-- Parse of the shared optional field
`retryCount: z.number().int().min(0).optional()`; `some rc` on success
(with `rc = none` when the field is absent), `none` when the field is
present but invalid. -/
def parseRetryCount (j : Json) : Option (Option Nat) :=
  match j.getField "retryCount" with
  | none => some none
  | some (.num n) => if 0 ≤ n then some (some n.toNat) else none
  | some _ => none

/-- Parse of an optional string field (`z.string().optional()`): absent is
fine, any present non-string value is invalid. -/
def parseOptionalString (j : Json) (key : String) : Option (Option String) :=
  match j.getField key with
  | none => some none
  | some (.str s) => some (some s)
  | some _ => none

/-- Embedding of `EmailJobPayloadSchema.safeParse` (part_005 lines
200-232): discriminate on the `type` tag, then validate the per-variant
fields; `name` is optional for verification and welcome, `companyName` is
optional only for welcome. -/
def safeParseEmailJob (j : Json) : Option EmailJobPayload :=
  match j.getField "type" with
  | some (.str "verification") =>
    match parseTo j, parseRetryCount j, j.getField "token", parseOptionalString j "name" with
    | some toAddr, some rc, some (.str token), some name =>
      if 1 ≤ token.length then some (.verification toAddr token name rc) else none
    | _, _, _, _ => none
  | some (.str "invite") =>
    match parseTo j, parseRetryCount j, j.getField "companyName",
        j.getField "invitationUrl" with
    | some toAddr, some rc, some (.str companyName), some (.str url) =>
      if 1 ≤ companyName.length then
        if isUrlLike url then some (.invite toAddr companyName url rc) else none
      else none
    | _, _, _, _ => none
  | some (.str "welcome") =>
    match parseTo j, parseRetryCount j, parseOptionalString j "name",
        parseOptionalString j "companyName" with
    | some toAddr, some rc, some name, some companyName =>
      some (.welcome toAddr name companyName rc)
    | _, _, _, _ => none
  | _ => none

/-- JS falsiness of an optional string: undefined and the empty string are
falsy. -/
def optStrFalsy : Option String → Bool
  | none => true
  | some s => s == ""

/-- Embedding of `processEmailJob(rawPayload)` (part_005 lines 246-313) as
a function of the collaborator behaviour `sendOk` (whether the templated
email send resolves or throws) returning the handler outcome and the
email-collaborator invocations appended to `calls`.  An invalid payload
throws before any send.  Inside the switch, the verification arm throws
when `!payload.token || !payload.name` (so an absent or empty optional
`name` throws), the invite arm throws when `!payload.companyName ||
!payload.invitationUrl`, and the welcome arm picks the onboarding or the
company template by the falsiness of `companyName`.  Every throw caught at
line 297 is rethrown on both sides of the retry-count comparison (the
incremented retry payload of line 308 is dead code), so a send failure
always surfaces as a handler throw. -/
def processEmailJob (sendOk : Bool) (rawPayload : Json) (calls : List EmailCall) :
    HandlerOutcome × List EmailCall :=
  match safeParseEmailJob rawPayload with
  | none => (.threw, calls)
  | some payload =>
    match payload with
    | .verification toAddr token name _rc =>
      if token == "" || optStrFalsy name then
        (.threw, calls)
      else
        let calls2 := calls ++ [EmailCall.verificationEmail toAddr token name]
        if sendOk then (.resolved true, calls2) else (.threw, calls2)
    | .invite toAddr companyName url _rc =>
      if companyName == "" || url == "" then
        (.threw, calls)
      else
        let calls2 := calls ++ [EmailCall.userInvitation companyName toAddr url]
        if sendOk then (.resolved true, calls2) else (.threw, calls2)
    | .welcome toAddr name companyName _rc =>
      if optStrFalsy companyName then
        let calls2 := calls ++ [EmailCall.welcomeOnboarding toAddr name]
        if sendOk then (.resolved true, calls2) else (.threw, calls2)
      else
        let calls2 := calls ++ [EmailCall.companyWelcome toAddr (companyName.getD "") name]
        if sendOk then (.resolved true, calls2) else (.threw, calls2)

/-- C8: a message on the email queue whose body is not valid JSON is
negatively acknowledged without requeue (dead-lettered) by the consumer
engine, the handler callback is never invoked, and no email-collaborator
call is made — whatever the collaborator would have done and whatever
calls happened before. -/
theorem malformed_email_message_dead_lettered (sendOk : Bool) (calls : List EmailCall) :
    consumeOne (processEmailJob sendOk) Message.malformed calls =
      ⟨.nackNoRequeue, false, calls⟩ :=
  rfl

/-- A verification payload omitting the optional `name` field. -/
def verificationNoName : Json :=
  .obj [("type", .str "verification"), ("to", .str "user@example.com"),
    ("token", .str "tok123")]

/-- The same verification payload with `name` present. -/
def verificationWithName : Json :=
  .obj [("type", .str "verification"), ("to", .str "user@example.com"),
    ("token", .str "tok123"), ("name", .str "Ann")]

/-- C9: the schema accepts a verification payload that omits the optional
`name` (first conjunct), but the dispatch switch then throws on
`!payload.name` before any send, so the verification email is never
invoked (second conjunct) — even with a collaborator that would succeed —
whereas the same payload with `name` present validates, invokes the send
exactly once and resolves successfully (third conjunct). -/
theorem verification_without_name_throws :
    safeParseEmailJob verificationNoName =
      some (.verification "user@example.com" "tok123" none none) ∧
    processEmailJob true verificationNoName [] = (.threw, []) ∧
    processEmailJob true verificationWithName [] =
      (.resolved true,
        [EmailCall.verificationEmail "user@example.com" "tok123" (some "Ann")]) := by
  decide

/-- C10: the consumer engine decides acknowledgment solely by whether the
handler callback throws: a malformed body is nack-ed without requeue with
the handler never invoked; a callback that resolves leads to an ack
whatever boolean it resolved with; a callback that throws leads to a nack
without requeue. -/
theorem consumer_acks_iff_callback_resolves :
    ∀ (α σ : Type) (handler : α → σ → HandlerOutcome × σ) (s : σ),
      (consumeOne handler Message.malformed s = ⟨.nackNoRequeue, false, s⟩) ∧
      (∀ (a : α) (b : Bool) (s2 : σ), handler a s = (.resolved b, s2) →
        consumeOne handler (Message.content a) s = ⟨.ack, true, s2⟩) ∧
      (∀ (a : α) (s2 : σ), handler a s = (.threw, s2) →
        consumeOne handler (Message.content a) s = ⟨.nackNoRequeue, true, s2⟩) := by
  intro α σ handler s
  refine ⟨rfl, ?_, ?_⟩
  · intro a b s2 h
    simp [consumeOne, h]
  · intro a s2 h
    simp [consumeOne, h]

/-- Witness for C10: the payroll handler resolves `false` on a job for a
missing payroll, and the engine still acks. -/
theorem consumer_acks_iff_callback_resolves_witness :
    consumeOne processGeneratePayrollJob (Message.content jobP404) dbEmpty =
      ⟨.ack, true, dbEmpty⟩ :=
  (consumer_acks_iff_callback_resolves GeneratePayrollJobPayload DB
    processGeneratePayrollJob dbEmpty).2.1 jobP404 false dbEmpty (by decide)
